import Mathlib

set_option linter.unusedVariables false

/-! Shallow embedding of the core of the ML-Enhanced Memory Management System
simulation: the online page-access engines of
`predictors/xgboost_model.py` (`XGBoostPredictor.access_page`,
`XGBoostPredictor._select_victim`) and `predictors/lstm_model.py`
(`LSTMPredictor.access_page`, `LSTMPredictor.predict_next`), together with the
cumulative training accumulator and the comparison harness of `app.py`.
The statistical internals of the predictors (XGBClassifier, the PyTorch LSTM,
encoders and scalers) are consumed through abstract function fields, as the
specification treats them as an external capability. -/

/-- Per-slot frame metadata, mirroring the `frame_metadata` dictionaries
`{'load_time': .., 'last_access': .., 'access_count': ..}` of both predictor
classes; the `'page'` entry of those dictionaries always mirrors the `frames`
list, which carries the page here. -/
structure FrameMeta where
  load_time : Nat
  last_access : Nat
  access_count : Nat
  deriving DecidableEq, Repr

/-- Default metadata, as set by the constructors (all zeros). -/
def metaDefault : FrameMeta := ⟨0, 0, 0⟩

/-- Value type for the JSON-style dictionaries returned by `access_page`:
booleans, frame indices, page keys, optional page keys, and frame lists. -/
inductive DVal (κ : Type) where
  | vB (b : Bool)
  | vN (n : Nat)
  | vK (k : κ)
  | vOK (o : Option κ)
  | vL (l : List (Option κ))
  deriving DecidableEq, Repr

/-- Dictionary key constants of the result records. -/
def kHit : String := "hit"

/-- Dictionary key for the accessed page. -/
def kPage : String := "page"

/-- Dictionary key for the frame index used. -/
def kFrame : String := "frame"

/-- Dictionary key for the replaced page. -/
def kReplaced : String := "replaced"

/-- Dictionary key for the prediction. -/
def kPrediction : String := "prediction"

/-- Dictionary key for the page-fault flag (LSTM result only). -/
def kPageFault : String := "pageFault"

/-- Dictionary key for the frame list (LSTM result only). -/
def kFrames : String := "frames"

/-- Python slice `l[-n:]`: the last `n` elements, or the whole list when
`n = 0` (python `l[-0:]` is `l`). -/
def lastN {α : Type} (l : List α) (n : Nat) : List α :=
  if n = 0 then l else l.drop (l.length - n)

/-- python `min(range(n), key=key)` with a boolean strict order: the first
index of the list attaining the minimal key (python `min` keeps the earliest
minimum).  On the empty list python's `min` raises `ValueError` — reachable
when an engine is constructed with `frame_count = 0` — while this embedding
totalizes the result to 0, so theorems about behaviour past that error path
must assume a positive frame count. -/
def first_argmin_by {β : Type} (lt : β → β → Bool) (key : Nat → β) : List Nat → Nat
  | [] => 0
  | j :: rest => rest.foldl (fun b i => if lt (key i) (key b) then i else b) j

/-- Strict order on `Option Nat` where `none` plays `float('inf')`, as in the
XGBoost LRU fallback key `last_access if frames[i] else float('inf')`. -/
def optNatLt : Option Nat → Option Nat → Bool
  | none, _ => false
  | some _, none => true
  | some a, some b => decide (a < b)

/-- Abstract view of the trained part of `XGBoostPredictor`: the `is_fitted`
flag, `context_window` and `classes_` attributes, plus two opaque functions
standing for the out-of-scope ML pipeline.  `predict_fn` abstracts the body of
the online-prediction try-block (scaler, `model.predict`,
`target_encoder.inverse_transform`; `none` models an exception).  `proba_fn`
abstracts `_select_victim`'s feature building, `scaler.transform` and
`model.predict_proba` (outer `none` models the outer try-block raising); the
returned per-page function stands for `target_encoder.transform` followed by
indexing into `probs` (page-level `none` models the inner try-block raising or
the index falling outside `probs`, both of which the source maps to
probability 0). -/
structure XgbModel where
  is_fitted : Bool
  context_window : Nat
  classes_ : List String
  predict_fn : List String → Option String
  proba_fn : List String → Option (String → Option ℚ)

/-- The mutable simulation state of an `XGBoostPredictor` instance (frames,
metadata, history and counters).  The source keeps `frame_count` as a separate
attribute always equal to `len(self.frames)`; here loops over
`range(self.frame_count)` use `frames.length`. -/
structure XgbState where
  frames : List (Option String)
  frame_metadata : List FrameMeta
  history : List String
  page_faults : Nat
  page_hits : Nat
  correct_predictions : Nat
  total_predictions : Nat
  last_prediction : Option String
  current_time : Nat
  deriving DecidableEq, Repr

/-- Constructor state of `XGBoostPredictor` (memory and evaluation parts). -/
def XgbState.init (frame_count : Nat) : XgbState :=
  { frames := List.replicate frame_count none
    frame_metadata := List.replicate frame_count metaDefault
    history := []
    page_faults := 0
    page_hits := 0
    correct_predictions := 0
    total_predictions := 0
    last_prediction := none
    current_time := 0 }

/-- Score assigned to frame slot `i` in the `_select_victim` loop of
`xgboost_model.py` (lines 476-488): `none` when the loop body skips the slot
(empty slot, falsy page string, or page outside `classes_`), otherwise
`ml_prob - recency * 0.3` where `ml_prob` defaults to 0 when the page cannot
be scored and `recency = (current_time - last_access) / max(1, current_time)`. -/
def XGBoostPredictor.slot_score (P : XgbModel) (frames : List (Option String))
    (meta : List FrameMeta) (time : Nat) (f : String → Option ℚ) (i : Nat) : Option ℚ :=
  match frames.getD i none with
  | none => none
  | some pg =>
    if pg ≠ "" ∧ pg ∈ P.classes_ then
      some (((f pg).getD 0) -
        (((time : ℚ) - ((meta.getD i metaDefault).last_access : ℚ)) / ((max 1 time : Nat) : ℚ)) * (3 / 10))
    else none

/-- The imperative minimum-score loop of `_select_victim`
(`min_score = inf; victim = 0; for i in range(n): ...`), as a fold whose
accumulator pairs the current minimum (`none` plays `float('inf')`) with the
current victim index. -/
def XGBoostPredictor.victim_fold (so : Nat → Option ℚ) (l : List Nat) : Option ℚ × Nat :=
  l.foldl (fun acc i =>
    match so i with
    | none => acc
    | some sc =>
      match acc.1 with
      | none => (some sc, i)
      | some m => if sc < m then (some sc, i) else acc) (none, 0)

/-- The LRU fallback of `XGBoostPredictor._select_victim` (line 494):
`min(range(frame_count), key=lambda i: last_access if frames[i] else inf)`. -/
def XGBoostPredictor.lru_fallback (frames : List (Option String))
    (meta : List FrameMeta) : Nat :=
  first_argmin_by optNatLt
    (fun i =>
      match frames.getD i none with
      | some _ => some (meta.getD i metaDefault).last_access
      | none => none)
    (List.range frames.length)

/-- `XGBoostPredictor._select_victim` (lines 458-494): when enough history
exists, the model is fitted, the last `context_window` pages are all in
`classes_` and the probability computation succeeds, run the scored loop;
otherwise fall back to LRU. -/
def XGBoostPredictor.select_victim (P : XgbModel) (frames : List (Option String))
    (meta : List FrameMeta) (history : List String) (time : Nat) : Nat :=
  if P.context_window ≤ history.length ∧ P.is_fitted then
    let context := lastN history P.context_window
    if context.all (fun p => decide (p ∈ P.classes_)) then
      match P.proba_fn context with
      | some f =>
        (XGBoostPredictor.victim_fold
          (XGBoostPredictor.slot_score P frames meta time f)
          (List.range frames.length)).2
      | none => XGBoostPredictor.lru_fallback frames meta
    else XGBoostPredictor.lru_fallback frames meta
  else XGBoostPredictor.lru_fallback frames meta

/-- `XGBoostPredictor.access_page` (lines 396-456).  The page key is
`str(page_number)`; `process_id` is accepted and ignored by the source.
Returns the result dictionary and the updated state. -/
def XGBoostPredictor.access_page (P : XgbModel) (s : XgbState) (process_id : String)
    (page_number : Nat) : List (String × DVal String) × XgbState :=
  let page_key := toString page_number
  let time := s.current_time + 1
  let total := if s.last_prediction.isSome then s.total_predictions + 1 else s.total_predictions
  let correct := if s.last_prediction = some page_key then s.correct_predictions + 1
    else s.correct_predictions
  let history := s.history ++ [page_key]
  let pred : Option String :=
    if P.context_window ≤ history.length ∧ P.is_fitted then
      let context := lastN history P.context_window
      if context.all (fun p => decide (p ∈ P.classes_)) then P.predict_fn context else none
    else none
  if some page_key ∈ s.frames then
    let frame_idx := s.frames.findIdx (fun o => decide (o = some page_key))
    let m := s.frame_metadata.getD frame_idx metaDefault
    ([(kHit, DVal.vB true), (kPage, DVal.vK page_key), (kFrame, DVal.vN frame_idx),
      (kPrediction, DVal.vOK pred)],
     { s with
        current_time := time
        total_predictions := total
        correct_predictions := correct
        history := history
        last_prediction := pred
        page_hits := s.page_hits + 1
        frame_metadata := s.frame_metadata.set frame_idx
          { m with last_access := time, access_count := m.access_count + 1 } })
  else
    let free_frame := s.frames.findIdx? (fun o => decide (o = none))
    let target_frame := match free_frame with
      | some i => i
      | none => XGBoostPredictor.select_victim P s.frames s.frame_metadata history time
    let replaced := match free_frame with
      | some _ => none
      | none => s.frames.getD target_frame none
    ([(kHit, DVal.vB false), (kPage, DVal.vK page_key), (kFrame, DVal.vN target_frame),
      (kReplaced, DVal.vOK replaced), (kPrediction, DVal.vOK pred)],
     { s with
        current_time := time
        total_predictions := total
        correct_predictions := correct
        history := history
        last_prediction := pred
        page_faults := s.page_faults + 1
        frames := s.frames.set target_frame (some page_key)
        frame_metadata := s.frame_metadata.set target_frame ⟨time, time, 1⟩ })

/-- Replay a list of `(processId, pageNumber)` accesses through
`XGBoostPredictor.access_page`, keeping the final state. -/
def XGBoostPredictor.run (P : XgbModel) (s : XgbState) : List (String × Nat) → XgbState
  | [] => s
  | a :: rest => XGBoostPredictor.run P (XGBoostPredictor.access_page P s a.1 a.2).2 rest

/-- Abstract view of the trained part of `LSTMPredictor`: `is_fitted`,
`sequence_length`, `classes_`, and one opaque function for the encoder plus
PyTorch model inside `predict_next`'s try-block (`none` models an exception). -/
structure LstmModel where
  is_fitted : Bool
  sequence_length : Nat
  classes_ : List Nat
  model_predict : List Nat → Option Nat

/-- The mutable simulation state of an `LSTMPredictor` instance.  Page keys
are `int(page_number)`. -/
structure LstmState where
  frames : List (Option Nat)
  frame_metadata : List FrameMeta
  history : List Nat
  page_faults : Nat
  page_hits : Nat
  correct_predictions : Nat
  total_predictions : Nat
  last_prediction : Option Nat
  current_time : Nat
  deriving DecidableEq, Repr

/-- Constructor state of `LSTMPredictor` (memory and evaluation parts). -/
def LstmState.init (frame_count : Nat) : LstmState :=
  { frames := List.replicate frame_count none
    frame_metadata := List.replicate frame_count metaDefault
    history := []
    page_faults := 0
    page_hits := 0
    correct_predictions := 0
    total_predictions := 0
    last_prediction := none
    current_time := 0 }

/-- `LSTMPredictor.predict_next` (lines 318-343): `None` when unfitted or the
history is shorter than `sequence_length`; `None` when the window contains a
page outside `classes_`; otherwise the abstracted encoder+model output. -/
def LSTMPredictor.predict_next (P : LstmModel) (current_sequence : List Nat) : Option Nat :=
  if ¬ P.is_fitted = true ∨ current_sequence.length < P.sequence_length then none
  else
    let seq := lastN current_sequence P.sequence_length
    if ¬ (seq.all (fun p => decide (p ∈ P.classes_)) = true) then none
    else P.model_predict seq

/-- `LSTMPredictor.access_page` (lines 345-401).  The page key is
`int(page_number)`; `process_id` is accepted and ignored by the source.  The
victim is always the LRU slot (`min(range(frame_count), key=last_access)`). -/
def LSTMPredictor.access_page (P : LstmModel) (s : LstmState) (process_id : String)
    (page_number : Nat) : List (String × DVal Nat) × LstmState :=
  let page_key := page_number
  let time := s.current_time + 1
  let total := if s.last_prediction.isSome then s.total_predictions + 1 else s.total_predictions
  let correct := if s.last_prediction = some page_key then s.correct_predictions + 1
    else s.correct_predictions
  let history := s.history ++ [page_key]
  let pred := LSTMPredictor.predict_next P history
  if some page_key ∈ s.frames then
    let frame_idx := s.frames.findIdx (fun o => decide (o = some page_key))
    let m := s.frame_metadata.getD frame_idx metaDefault
    ([(kHit, DVal.vB true), (kPageFault, DVal.vB false), (kReplaced, DVal.vOK none),
      (kFrames, DVal.vL s.frames), (kPrediction, DVal.vOK pred)],
     { s with
        current_time := time
        total_predictions := total
        correct_predictions := correct
        history := history
        last_prediction := pred
        page_hits := s.page_hits + 1
        frame_metadata := s.frame_metadata.set frame_idx
          { m with last_access := time, access_count := m.access_count + 1 } })
  else
    let free_frame := s.frames.findIdx? (fun o => decide (o = none))
    let target_frame := match free_frame with
      | some i => i
      | none => first_argmin_by (fun a b => decide (a < b))
          (fun i => (s.frame_metadata.getD i metaDefault).last_access)
          (List.range s.frames.length)
    let replaced := match free_frame with
      | some _ => none
      | none => s.frames.getD target_frame none
    let frames1 := s.frames.set target_frame (some page_key)
    ([(kHit, DVal.vB false), (kPageFault, DVal.vB true), (kReplaced, DVal.vOK replaced),
      (kFrames, DVal.vL frames1), (kPrediction, DVal.vOK pred)],
     { s with
        current_time := time
        total_predictions := total
        correct_predictions := correct
        history := history
        last_prediction := pred
        page_faults := s.page_faults + 1
        frames := frames1
        frame_metadata := s.frame_metadata.set target_frame ⟨time, time, 1⟩ })

/-- Replay a list of `(processId, pageNumber)` accesses through
`LSTMPredictor.access_page`, keeping the final state. -/
def LSTMPredictor.run (P : LstmModel) (s : LstmState) : List (String × Nat) → LstmState
  | [] => s
  | a :: rest => LSTMPredictor.run P (LSTMPredictor.access_page P s a.1 a.2).2 rest

/-- The untrained (`is_fitted = False`) specialization of
`XGBoostPredictor.access_page`: the prediction branch yields `None` and victim
selection falls through to the LRU fallback.  Proved equal to `access_page`
whenever `is_fitted = false` in `xgb_access_page_untrained_eq`. -/
def XGBoostPredictor.untrained_step (s : XgbState) (process_id : String)
    (page_number : Nat) : List (String × DVal String) × XgbState :=
  let page_key := toString page_number
  let time := s.current_time + 1
  let total := if s.last_prediction.isSome then s.total_predictions + 1 else s.total_predictions
  let correct := if s.last_prediction = some page_key then s.correct_predictions + 1
    else s.correct_predictions
  let history := s.history ++ [page_key]
  if some page_key ∈ s.frames then
    let frame_idx := s.frames.findIdx (fun o => decide (o = some page_key))
    let m := s.frame_metadata.getD frame_idx metaDefault
    ([(kHit, DVal.vB true), (kPage, DVal.vK page_key), (kFrame, DVal.vN frame_idx),
      (kPrediction, DVal.vOK none)],
     { s with
        current_time := time
        total_predictions := total
        correct_predictions := correct
        history := history
        last_prediction := none
        page_hits := s.page_hits + 1
        frame_metadata := s.frame_metadata.set frame_idx
          { m with last_access := time, access_count := m.access_count + 1 } })
  else
    let free_frame := s.frames.findIdx? (fun o => decide (o = none))
    let target_frame := match free_frame with
      | some i => i
      | none => XGBoostPredictor.lru_fallback s.frames s.frame_metadata
    let replaced := match free_frame with
      | some _ => none
      | none => s.frames.getD target_frame none
    ([(kHit, DVal.vB false), (kPage, DVal.vK page_key), (kFrame, DVal.vN target_frame),
      (kReplaced, DVal.vOK replaced), (kPrediction, DVal.vOK none)],
     { s with
        current_time := time
        total_predictions := total
        correct_predictions := correct
        history := history
        last_prediction := none
        page_faults := s.page_faults + 1
        frames := s.frames.set target_frame (some page_key)
        frame_metadata := s.frame_metadata.set target_frame ⟨time, time, 1⟩ })

/-- The untrained (`is_fitted = False`) specialization of
`LSTMPredictor.access_page`: `predict_next` yields `None`. -/
def LSTMPredictor.untrained_step (s : LstmState) (process_id : String)
    (page_number : Nat) : List (String × DVal Nat) × LstmState :=
  let page_key := page_number
  let time := s.current_time + 1
  let total := if s.last_prediction.isSome then s.total_predictions + 1 else s.total_predictions
  let correct := if s.last_prediction = some page_key then s.correct_predictions + 1
    else s.correct_predictions
  let history := s.history ++ [page_key]
  if some page_key ∈ s.frames then
    let frame_idx := s.frames.findIdx (fun o => decide (o = some page_key))
    let m := s.frame_metadata.getD frame_idx metaDefault
    ([(kHit, DVal.vB true), (kPageFault, DVal.vB false), (kReplaced, DVal.vOK none),
      (kFrames, DVal.vL s.frames), (kPrediction, DVal.vOK none)],
     { s with
        current_time := time
        total_predictions := total
        correct_predictions := correct
        history := history
        last_prediction := none
        page_hits := s.page_hits + 1
        frame_metadata := s.frame_metadata.set frame_idx
          { m with last_access := time, access_count := m.access_count + 1 } })
  else
    let free_frame := s.frames.findIdx? (fun o => decide (o = none))
    let target_frame := match free_frame with
      | some i => i
      | none => first_argmin_by (fun a b => decide (a < b))
          (fun i => (s.frame_metadata.getD i metaDefault).last_access)
          (List.range s.frames.length)
    let replaced := match free_frame with
      | some _ => none
      | none => s.frames.getD target_frame none
    let frames1 := s.frames.set target_frame (some page_key)
    ([(kHit, DVal.vB false), (kPageFault, DVal.vB true), (kReplaced, DVal.vOK replaced),
      (kFrames, DVal.vL frames1), (kPrediction, DVal.vOK none)],
     { s with
        current_time := time
        total_predictions := total
        correct_predictions := correct
        history := history
        last_prediction := none
        page_faults := s.page_faults + 1
        frames := frames1
        frame_metadata := s.frame_metadata.set target_frame ⟨time, time, 1⟩ })

/-- Victim slot as described by the checked claim for the ML-hybrid policy:
EVERY occupied slot participates, a slot page the predictor cannot score
(outside the vocabulary, or failing the per-page scoring) contributes
probability 0, the minimum score wins, and ties go to the lowest slot index. -/
def XGBoostPredictor.claim_victim (P : XgbModel) (frames : List (Option String))
    (meta : List FrameMeta) (time : Nat) (f : String → Option ℚ) : Nat :=
  let score := fun (i : Nat) =>
    let pg := (frames.getD i none).getD ""
    let prob : ℚ := if pg ∈ P.classes_ then (f pg).getD 0 else 0
    prob - (((time : ℚ) - ((meta.getD i metaDefault).last_access : ℚ)) / ((max 1 time : Nat) : ℚ)) * (3 / 10)
  let occ := (List.range frames.length).filter (fun i => (frames.getD i none).isSome)
  match (occ.map score).min? with
  | none => 0
  | some m => (occ.find? (fun i => decide (score i = m))).getD 0

/-- The simulation statistics produced by `XGBoostPredictor.get_state` and
`LSTMPredictor.get_stats`. -/
structure SimStats where
  page_faults : Nat
  page_hits : Nat
  hit_ratio : ℚ
  prediction_accuracy : ℚ
  deriving DecidableEq, Repr

/-- `XGBoostPredictor.get_state` (lines 530-538). -/
def XGBoostPredictor.get_state (s : XgbState) : SimStats :=
  let total := s.page_faults + s.page_hits
  { page_faults := s.page_faults
    page_hits := s.page_hits
    hit_ratio := if 0 < total then (s.page_hits : ℚ) / (total : ℚ) else 0
    prediction_accuracy := if 0 < s.total_predictions then
      (s.correct_predictions : ℚ) / (s.total_predictions : ℚ) * 100 else 0 }

/-- `LSTMPredictor.get_stats` (lines 403-411). -/
def LSTMPredictor.get_stats (s : LstmState) : SimStats :=
  let total := s.page_faults + s.page_hits
  { page_faults := s.page_faults
    page_hits := s.page_hits
    hit_ratio := if 0 < total then (s.page_hits : ℚ) / (total : ℚ) else 0
    prediction_accuracy := if 0 < s.total_predictions then
      (s.correct_predictions : ℚ) / (s.total_predictions : ℚ) * 100 else 0 }

/-- State of a stand-alone pure-LRU pager, following the specification's
baseline replacement policy (a FrameTable plus hit/fault counters, no
predictor).  Used as the reference behaviour for untrained engines. -/
structure PagerState (κ : Type) where
  frames : List (Option κ)
  meta : List FrameMeta
  page_hits : Nat
  page_faults : Nat
  current_time : Nat
  deriving DecidableEq, Repr

/-- Empty pager of the given capacity. -/
def PagerState.init (κ : Type) (frame_count : Nat) : PagerState κ :=
  { frames := List.replicate frame_count none
    meta := List.replicate frame_count metaDefault
    page_hits := 0
    page_faults := 0
    current_time := 0 }

/-- One pure-LRU access, per the specification: bump the clock; on a hit touch
the slot; on a fault load into the first empty slot, or else evict the slot
with the smallest `last_access` (earliest such slot on ties). -/
def lru_access {κ : Type} [DecidableEq κ] (s : PagerState κ) (k : κ) : PagerState κ :=
  let time := s.current_time + 1
  if some k ∈ s.frames then
    let idx := s.frames.findIdx (fun o => decide (o = some k))
    let m := s.meta.getD idx metaDefault
    { s with
        current_time := time
        page_hits := s.page_hits + 1
        meta := s.meta.set idx { m with last_access := time, access_count := m.access_count + 1 } }
  else
    let target := match s.frames.findIdx? (fun o => decide (o = none)) with
      | some i => i
      | none => first_argmin_by (fun a b => decide (a < b))
          (fun i => (s.meta.getD i metaDefault).last_access)
          (List.range s.frames.length)
    { s with
        current_time := time
        page_faults := s.page_faults + 1
        frames := s.frames.set target (some k)
        meta := s.meta.set target ⟨time, time, 1⟩ }

/-- Replay a key sequence through the pure-LRU pager. -/
def lru_run {κ : Type} [DecidableEq κ] (s : PagerState κ) : List κ → PagerState κ
  | [] => s
  | k :: rest => lru_run (lru_access s k) rest

/-- Hit/fault statistics of a pager state, with prediction accuracy 0 (a
predictorless engine makes no predictions). -/
def pager_stats {κ : Type} (t : PagerState κ) : SimStats :=
  let total := t.page_faults + t.page_hits
  { page_faults := t.page_faults
    page_hits := t.page_hits
    hit_ratio := if 0 < total then (t.page_hits : ℚ) / (total : ℚ) else 0
    prediction_accuracy := 0 }

/-- One model family's entry in the `/compare` response: the `'stats'`
sub-dictionary of `compare_models` in `app.py` (lines 527-536), with the
percentage string formatting kept as exact rationals. -/
structure CompareEntry where
  page_faults : Nat
  page_hits : Nat
  hit_ratio : ℚ
  accuracy : ℚ
  trained : Bool
  deriving DecidableEq, Repr

/-- Build a comparison entry from simulation statistics and the ephemeral
predictor's `is_fitted` flag. -/
def entry_of_stats (st : SimStats) (tr : Bool) : CompareEntry :=
  { page_faults := st.page_faults
    page_hits := st.page_hits
    hit_ratio := st.hit_ratio
    accuracy := st.prediction_accuracy
    trained := tr }

/-- A freshly constructed, unfitted `XGBoostPredictor(frame_count)` as used for
an ephemeral comparison engine: default `context_window = 3`, empty classes,
and a model that cannot predict or score. -/
def untrained_xgb : XgbModel :=
  { is_fitted := false
    context_window := 3
    classes_ := []
    predict_fn := fun _ => none
    proba_fn := fun _ => none }

/-- A freshly constructed, unfitted `LSTMPredictor(frame_count)` as used for an
ephemeral comparison engine: default `sequence_length = 5`, empty classes. -/
def untrained_lstm : LstmModel :=
  { is_fitted := false
    sequence_length := 5
    classes_ := []
    model_predict := fun _ => none }

/-- The `/compare` harness of `app.py` (lines 451-546) for the two model
families whose source is present (`xgboost`, `lstm`); `random_forest` is
imported from a module absent from the repository snapshot.  For each family a
fresh engine of the requested `frame_count` is built; if the global predictor
is fitted, its trained components (model, encoders, classes, scaler) are
copied — which in this embedding is the whole `XgbModel`/`LstmModel` record
except the window length, which keeps the fresh instance's default — and the
whole sequence is replayed; finally per-family statistics are collected.  The
numeric stats are modeled exactly; the source's percent-string formatting is
not. -/
def compare_models (gx : XgbModel) (gl : LstmModel) (frame_count : Nat)
    (sequence : List (String × Nat)) : CompareEntry × CompareEntry :=
  let px := if gx.is_fitted then { gx with context_window := 3 } else untrained_xgb
  let pl := if gl.is_fitted then { gl with sequence_length := 5 } else untrained_lstm
  let sx := XGBoostPredictor.run px (XgbState.init frame_count) sequence
  let sl := LSTMPredictor.run pl (LstmState.init frame_count) sequence
  (entry_of_stats (XGBoostPredictor.get_state sx) px.is_fitted,
   entry_of_stats (LSTMPredictor.get_stats sl) pl.is_fitted)

/-- The comparison entry of a pure-LRU run: what an untrained ephemeral engine
should report. -/
def lru_entry {κ : Type} [DecidableEq κ] (frame_count : Nat) (keys : List κ) : CompareEntry :=
  entry_of_stats (pager_stats (lru_run (PagerState.init κ frame_count) keys)) false

/-- The process-wide cumulative training state of `app.py` (lines 31-36). -/
structure TrainingState where
  accumulated_sequences : List (List Nat)
  current_workload_type : Option String
  total_samples : Nat
  training_history : List (String × Nat × Bool)
  deriving DecidableEq, Repr

/-- The initial `training_state`. -/
def TrainingState.init : TrainingState :=
  { accumulated_sequences := []
    current_workload_type := none
    total_samples := 0
    training_history := [] }

/-- The accumulator cap `MAX_ACCUMULATED` of `train_all_models`. -/
def MAX_ACCUMULATED : Nat := 10

/-- The accumulator mutation performed by `/train-all`
(`train_all_models` in `app.py`, lines 122-186): `none` models the
`'No training sequences provided'` 400 response (no mutation); otherwise the
new state and the `type_changed` flag.  Steps: auto-reset on workload-type
change, manual reset on request, set the workload type, extend, bump
`total_samples` by the FIRST sequence's length, trim to the most recent
`MAX_ACCUMULATED` sequences, and append a session record. -/
def train_all_update (st : TrainingState) (sequences : List (List Nat))
    (workload_type : String) (reset_accumulated : Bool) :
    Option (TrainingState × Bool) :=
  if sequences = [] then none
  else
    let type_changed :=
      st.current_workload_type.isSome ∧ ¬ st.current_workload_type = some workload_type
    let acc0 := if type_changed then [] else st.accumulated_sequences
    let tot0 := if type_changed then 0 else st.total_samples
    let acc1 := if reset_accumulated then [] else acc0
    let tot1 := if reset_accumulated then 0 else tot0
    let acc2 := acc1 ++ sequences
    let tot2 := tot1 + (sequences.headD []).length
    let acc3 := if MAX_ACCUMULATED < acc2.length then
      acc2.drop (acc2.length - MAX_ACCUMULATED) else acc2
    some
      ({ accumulated_sequences := acc3
         current_workload_type := some workload_type
         total_samples := tot2
         training_history := st.training_history ++
           [(workload_type, acc3.length, decide type_changed)] },
       decide type_changed)

/-- Fold a list of `/train-all` submissions (each one call's `sequences`
payload) through `train_all_update` with a fixed workload type; failed calls
leave the state unchanged, as the 400 response does. -/
def train_all_fold (st : TrainingState) (wt : String) : List (List (List Nat)) → TrainingState
  | [] => st
  | b :: rest =>
    train_all_fold
      (match train_all_update st b wt false with
       | some (st1, _) => st1
       | none => st) wt rest

/-- Correspondence between an untrained `XGBoostPredictor` simulation state
and the pure-LRU pager: equal memory state and counters, no pending
prediction, and untouched prediction counters. -/
def XgbPagerRel (s : XgbState) (t : PagerState String) : Prop :=
  s.frames = t.frames ∧ s.frame_metadata = t.meta ∧ s.page_hits = t.page_hits ∧
  s.page_faults = t.page_faults ∧ s.current_time = t.current_time ∧
  s.last_prediction = none ∧ s.total_predictions = 0 ∧ s.correct_predictions = 0

/-- Correspondence between an untrained `LSTMPredictor` simulation state and
the pure-LRU pager. -/
def LstmPagerRel (s : LstmState) (t : PagerState Nat) : Prop :=
  s.frames = t.frames ∧ s.frame_metadata = t.meta ∧ s.page_hits = t.page_hits ∧
  s.page_faults = t.page_faults ∧ s.current_time = t.current_time ∧
  s.last_prediction = none ∧ s.total_predictions = 0 ∧ s.correct_predictions = 0

/-- A process identifier used in concrete scenarios. -/
def pid1 : String := "P1"

/-- A second, distinct process identifier. -/
def pid2 : String := "P2"

/-- The workload-type label of the sequential pattern. -/
def wtSequential : String := "sequential"

/-- The workload-type label of the random pattern. -/
def wtRandom : String := "random"

/-- Concrete per-page probabilities for the ML-hybrid counterexample: the
trained classes are "1" and "2"; page "1" is predicted likely (9/10). -/
def c1_probs : String → Option ℚ :=
  fun pg => if pg = toString 1 then some (9 / 10)
    else if pg = toString 2 then some (1 / 2) else none

/-- A concrete fitted model with `context_window = 1` and vocabulary
{"1", "2"} used to exercise `_select_victim`. -/
def c1_model : XgbModel :=
  { is_fitted := true
    context_window := 1
    classes_ := [toString 1, toString 2]
    predict_fn := fun _ => none
    proba_fn := fun _ => some c1_probs }

/-- The reachable state after accessing pages 5 and 1 on a fresh 2-frame
engine bound to `c1_model`: both frames full (pages "5" and "1"), page "5"
outside the trained vocabulary. -/
def c1_state : XgbState :=
  XGBoostPredictor.run c1_model (XgbState.init 2) [(pid1, 5), (pid1, 1)]

/-- A concrete fitted XGBoost snapshot for comparison-harness scenarios. -/
def c8_gx : XgbModel :=
  { is_fitted := true
    context_window := 3
    classes_ := [toString 1]
    predict_fn := fun _ => none
    proba_fn := fun _ => none }

/-- A concrete access sequence for comparison-harness scenarios. -/
def c8_seq : List (String × Nat) := [(pid1, 1), (pid1, 1)]

/-- A concrete XGBoost engine state holding page "7" in its only frame, used
to exercise the hit path. -/
def c9_sx : XgbState :=
  { frames := [some (toString 7)]
    frame_metadata := [⟨1, 1, 1⟩]
    history := [toString 7]
    page_faults := 1
    page_hits := 0
    correct_predictions := 0
    total_predictions := 0
    last_prediction := none
    current_time := 1 }

/-- A concrete LSTM engine state holding page 7 in its only frame. -/
def c9_sl : LstmState :=
  { frames := [some 7]
    frame_metadata := [⟨1, 1, 1⟩]
    history := [7]
    page_faults := 1
    page_hits := 0
    correct_predictions := 0
    total_predictions := 0
    last_prediction := none
    current_time := 1 }

/-- Concrete per-page probabilities whose target encoding always fails. -/
def c10_f : String → Option ℚ := fun _ => none

/-- A concrete fitted model with `context_window = 1` and vocabulary {"1"}. -/
def c10_model : XgbModel :=
  { is_fitted := true
    context_window := 1
    classes_ := [toString 1]
    predict_fn := fun _ => none
    proba_fn := fun _ => some c10_f }

/-- A full 2-slot frame table whose pages "9" and "8" are outside the trained
vocabulary of `c10_model`. -/
def c10_frames : List (Option String) := [some (toString 9), some (toString 8)]

/-- Metadata making slot 1 the least recently used slot. -/
def c10_meta : List FrameMeta := [⟨5, 5, 1⟩, ⟨1, 1, 1⟩]

/-! Helper lemmas. -/

theorem xgb_access_page_untrained_eq (P : XgbModel) (s : XgbState)
    (pid : String) (n : Nat) (h : P.is_fitted = false) :
    XGBoostPredictor.access_page P s pid n = XGBoostPredictor.untrained_step s pid n := by
  unfold XGBoostPredictor.access_page XGBoostPredictor.untrained_step
    XGBoostPredictor.select_victim
  simp [h]

theorem LSTMPredictor.predict_next_untrained (P : LstmModel)
    (h : P.is_fitted = false) :
    ∀ l : List Nat, LSTMPredictor.predict_next P l = none := by
  intro l
  unfold LSTMPredictor.predict_next
  simp [h]

theorem lstm_access_page_untrained_eq (P : LstmModel) (s : LstmState)
    (pid : String) (n : Nat) (h : P.is_fitted = false) :
    LSTMPredictor.access_page P s pid n = LSTMPredictor.untrained_step s pid n := by
  unfold LSTMPredictor.access_page LSTMPredictor.untrained_step
  simp only [LSTMPredictor.predict_next_untrained P h]

theorem occ_replicate_none {κ : Type} (n : Nat) :
    ((List.replicate n (none : Option κ)).filterMap id) = [] := by
  induction n with
  | zero => rfl
  | succ n ih => simp [List.replicate_succ, ih]

theorem occ_cons_none {κ : Type} (xs : List (Option κ)) :
    ((none :: xs).filterMap id) = xs.filterMap id := by
  simp [List.filterMap_cons]

theorem occ_cons_some {κ : Type} (a : κ) (xs : List (Option κ)) :
    ((some a :: xs).filterMap id) = a :: xs.filterMap id := by
  simp [List.filterMap_cons]

theorem occ_nodup_set {κ : Type} [DecidableEq κ] :
    ∀ (l : List (Option κ)) (t : Nat) (k : κ), some k ∉ l →
      (l.filterMap id).Nodup → ((l.set t (some k)).filterMap id).Nodup := by
  intro l
  induction l with
  | nil => intro t k _ _; simp
  | cons x xs ih =>
    intro t k hk hnd
    have hk' : some k ∉ xs := fun hx => hk (List.mem_cons_of_mem _ hx)
    have hkx : x ≠ some k := fun hx => hk (by rw [← hx]; exact List.mem_cons_self _ _)
    cases t with
    | zero =>
      rw [List.set_cons_zero]
      have hnd' : (xs.filterMap id).Nodup := by
        cases x with
        | none => rw [occ_cons_none] at hnd; exact hnd
        | some a => rw [occ_cons_some] at hnd; exact (List.nodup_cons.mp hnd).2
      rw [occ_cons_some]
      refine List.nodup_cons.mpr ⟨?_, hnd'⟩
      intro hmem
      obtain ⟨o, ho1, ho2⟩ := List.mem_filterMap.mp hmem
      cases o with
      | none => simp at ho2
      | some b =>
        simp only [id] at ho2
        cases ho2
        exact hk' ho1
    | succ t =>
      rw [List.set_cons_succ]
      cases x with
      | none =>
        rw [occ_cons_none] at hnd
        rw [occ_cons_none]
        exact ih t k hk' hnd
      | some a =>
        rw [occ_cons_some] at hnd
        rw [occ_cons_some]
        obtain ⟨hax, hnd'⟩ := List.nodup_cons.mp hnd
        refine List.nodup_cons.mpr ⟨?_, ih t k hk' hnd'⟩
        intro hmem
        obtain ⟨o, ho1, ho2⟩ := List.mem_filterMap.mp hmem
        cases o with
        | none => simp at ho2
        | some b =>
          simp only [id] at ho2
          cases ho2
          rcases List.mem_or_eq_of_mem_set ho1 with hin | heq
          · exact hax (List.mem_filterMap.mpr ⟨some a, hin, rfl⟩)
          · exact hkx heq

theorem xgb_access_counters (P : XgbModel) (s : XgbState)
    (pid : String) (n : Nat) :
    ((XGBoostPredictor.access_page P s pid n).2.page_hits = s.page_hits + 1 ∧
      (XGBoostPredictor.access_page P s pid n).2.page_faults = s.page_faults) ∨
    ((XGBoostPredictor.access_page P s pid n).2.page_hits = s.page_hits ∧
      (XGBoostPredictor.access_page P s pid n).2.page_faults = s.page_faults + 1) := by
  unfold XGBoostPredictor.access_page
  by_cases hmem : some (toString n) ∈ s.frames
  · left; simp [hmem]
  · right; simp [hmem]

theorem lstm_access_counters (P : LstmModel) (s : LstmState)
    (pid : String) (n : Nat) :
    ((LSTMPredictor.access_page P s pid n).2.page_hits = s.page_hits + 1 ∧
      (LSTMPredictor.access_page P s pid n).2.page_faults = s.page_faults) ∨
    ((LSTMPredictor.access_page P s pid n).2.page_hits = s.page_hits ∧
      (LSTMPredictor.access_page P s pid n).2.page_faults = s.page_faults + 1) := by
  unfold LSTMPredictor.access_page
  by_cases hmem : some n ∈ s.frames
  · left; simp [hmem]
  · right; simp [hmem]

theorem xgb_run_counters (P : XgbModel) :
    ∀ (accs : List (String × Nat)) (s : XgbState),
      (XGBoostPredictor.run P s accs).page_hits + (XGBoostPredictor.run P s accs).page_faults
        = s.page_hits + s.page_faults + accs.length := by
  intro accs
  induction accs with
  | nil => intro s; simp [XGBoostPredictor.run]
  | cons a rest ih =>
    intro s
    show (XGBoostPredictor.run P (XGBoostPredictor.access_page P s a.1 a.2).2 rest).page_hits +
      (XGBoostPredictor.run P (XGBoostPredictor.access_page P s a.1 a.2).2 rest).page_faults = _
    rw [ih]
    rcases xgb_access_counters P s a.1 a.2 with ⟨h1, h2⟩ | ⟨h1, h2⟩ <;>
      rw [h1, h2] <;> simp [List.length_cons] <;> omega

theorem lstm_run_counters (P : LstmModel) :
    ∀ (accs : List (String × Nat)) (s : LstmState),
      (LSTMPredictor.run P s accs).page_hits + (LSTMPredictor.run P s accs).page_faults
        = s.page_hits + s.page_faults + accs.length := by
  intro accs
  induction accs with
  | nil => intro s; simp [LSTMPredictor.run]
  | cons a rest ih =>
    intro s
    show (LSTMPredictor.run P (LSTMPredictor.access_page P s a.1 a.2).2 rest).page_hits +
      (LSTMPredictor.run P (LSTMPredictor.access_page P s a.1 a.2).2 rest).page_faults = _
    rw [ih]
    rcases lstm_access_counters P s a.1 a.2 with ⟨h1, h2⟩ | ⟨h1, h2⟩ <;>
      rw [h1, h2] <;> simp [List.length_cons] <;> omega

theorem xgb_access_nodup (P : XgbModel) (s : XgbState) (pid : String)
    (n : Nat) (h : (s.frames.filterMap id).Nodup) :
    (((XGBoostPredictor.access_page P s pid n).2).frames.filterMap id).Nodup := by
  unfold XGBoostPredictor.access_page
  by_cases hmem : some (toString n) ∈ s.frames
  · simpa [hmem] using h
  · simp only [hmem, if_false]
    exact occ_nodup_set s.frames _ _ hmem h

theorem lstm_access_nodup (P : LstmModel) (s : LstmState) (pid : String)
    (n : Nat) (h : (s.frames.filterMap id).Nodup) :
    (((LSTMPredictor.access_page P s pid n).2).frames.filterMap id).Nodup := by
  unfold LSTMPredictor.access_page
  by_cases hmem : some n ∈ s.frames
  · simpa [hmem] using h
  · simp only [hmem, if_false]
    exact occ_nodup_set s.frames _ _ hmem h

theorem xgb_run_nodup (P : XgbModel) :
    ∀ (accs : List (String × Nat)) (s : XgbState), (s.frames.filterMap id).Nodup →
      ((XGBoostPredictor.run P s accs).frames.filterMap id).Nodup := by
  intro accs
  induction accs with
  | nil => intro s h; exact h
  | cons a rest ih =>
    intro s h
    exact ih _ (xgb_access_nodup P s a.1 a.2 h)

theorem lstm_run_nodup (P : LstmModel) :
    ∀ (accs : List (String × Nat)) (s : LstmState), (s.frames.filterMap id).Nodup →
      ((LSTMPredictor.run P s accs).frames.filterMap id).Nodup := by
  intro accs
  induction accs with
  | nil => intro s h; exact h
  | cons a rest ih =>
    intro s h
    exact ih _ (lstm_access_nodup P s a.1 a.2 h)

theorem XGBoostPredictor.victim_fold_spec (so : Nat → Option ℚ) :
    ∀ n : Nat,
      ((∀ i, i < n → so i = none) ∧
        XGBoostPredictor.victim_fold so (List.range n) = (none, 0)) ∨
      (∃ m v, XGBoostPredictor.victim_fold so (List.range n) = (some m, v) ∧ v < n ∧
        so v = some m ∧
        (∀ i, i < n → ∀ q, so i = some q → m ≤ q) ∧
        (∀ i, i < n → so i = some m → v ≤ i)) := by
  intro n
  induction n with
  | zero =>
    left
    exact ⟨fun i hi => absurd hi (Nat.not_lt_zero i), rfl⟩
  | succ n ih =>
    have hstep : XGBoostPredictor.victim_fold so (List.range (n + 1)) =
        (match so n with
         | none => XGBoostPredictor.victim_fold so (List.range n)
         | some sc =>
           match (XGBoostPredictor.victim_fold so (List.range n)).1 with
           | none => (some sc, n)
           | some m =>
             if sc < m then (some sc, n)
             else XGBoostPredictor.victim_fold so (List.range n)) := by
      rw [XGBoostPredictor.victim_fold, List.range_succ, List.foldl_append]
      rfl
    cases hsn : so n with
    | none =>
      rw [hsn] at hstep
      cases ih with
      | inl h =>
        left
        refine ⟨?_, by rw [hstep]; exact h.2⟩
        intro i hi
        rcases Nat.lt_succ_iff_lt_or_eq.mp hi with h' | h'
        · exact h.1 i h'
        · rw [h']; exact hsn
      | inr h =>
        obtain ⟨m, v, he, hv, hsv, hmin, hfirst⟩ := h
        right
        refine ⟨m, v, by rw [hstep]; exact he, Nat.lt_succ_of_lt hv, hsv, ?_, ?_⟩
        · intro i hi q hq
          rcases Nat.lt_succ_iff_lt_or_eq.mp hi with h' | h'
          · exact hmin i h' q hq
          · rw [h', hsn] at hq; cases hq
        · intro i hi hq
          rcases Nat.lt_succ_iff_lt_or_eq.mp hi with h' | h'
          · exact hfirst i h' hq
          · rw [h', hsn] at hq; cases hq
    | some sc =>
      cases ih with
      | inl h =>
        obtain ⟨hnone, he⟩ := h
        rw [hsn, he] at hstep
        simp only [] at hstep
        right
        refine ⟨sc, n, hstep, Nat.lt_succ_self n, hsn, ?_, ?_⟩
        · intro i hi q hq
          rcases Nat.lt_succ_iff_lt_or_eq.mp hi with h' | h'
          · rw [hnone i h'] at hq; cases hq
          · rw [h', hsn] at hq; cases hq; exact le_refl _
        · intro i hi hq
          rcases Nat.lt_succ_iff_lt_or_eq.mp hi with h' | h'
          · rw [hnone i h'] at hq; cases hq
          · omega
      | inr h =>
        obtain ⟨m, v, he, hv, hsv, hmin, hfirst⟩ := h
        rw [hsn, he] at hstep
        simp only [] at hstep
        by_cases hlt : sc < m
        · rw [if_pos hlt] at hstep
          right
          refine ⟨sc, n, hstep, Nat.lt_succ_self n, hsn, ?_, ?_⟩
          · intro i hi q hq
            rcases Nat.lt_succ_iff_lt_or_eq.mp hi with h' | h'
            · exact le_trans (le_of_lt hlt) (hmin i h' q hq)
            · rw [h', hsn] at hq; cases hq; exact le_refl _
          · intro i hi hq
            rcases Nat.lt_succ_iff_lt_or_eq.mp hi with h' | h'
            · exact absurd (hmin i h' sc hq) (not_le_of_lt hlt)
            · omega
        · rw [if_neg hlt] at hstep
          right
          refine ⟨m, v, hstep, Nat.lt_succ_of_lt hv, hsv, ?_, ?_⟩
          · intro i hi q hq
            rcases Nat.lt_succ_iff_lt_or_eq.mp hi with h' | h'
            · exact hmin i h' q hq
            · rw [h', hsn] at hq; cases hq; exact not_lt.mp hlt
          · intro i hi hq
            rcases Nat.lt_succ_iff_lt_or_eq.mp hi with h' | h'
            · exact hfirst i h' hq
            · omega

theorem XGBoostPredictor.victim_fold_all_none (so : Nat → Option ℚ) (n : Nat)
    (h : ∀ i, i < n → so i = none) :
    (XGBoostPredictor.victim_fold so (List.range n)).2 = 0 := by
  rcases XGBoostPredictor.victim_fold_spec so n with ⟨_, he⟩ | ⟨m, v, he, hv, hsv, _, _⟩
  · rw [he]
  · rw [h v hv] at hsv; cases hsv

theorem full_of_none_findIdx {κ : Type} [DecidableEq κ] (l : List (Option κ))
    (h : l.findIdx? (fun o => decide (o = none)) = none) :
    ∀ i, i < l.length → l.getD i none ≠ none := by
  intro i hi
  rw [List.getD_eq_getElem l none hi]
  intro hcon
  have hmem := List.getElem_mem hi
  rw [hcon] at hmem
  have := (List.findIdx?_eq_none_iff.mp h) none hmem
  simp at this

theorem first_argmin_by_congr {β γ : Type} (ltA : β → β → Bool) (ltB : γ → γ → Bool)
    (keyA : Nat → β) (keyB : Nat → γ) (good : Nat → Prop)
    (hkey : ∀ i j, good i → good j → ltA (keyA i) (keyA j) = ltB (keyB i) (keyB j)) :
    ∀ (l : List Nat), (∀ i ∈ l, good i) →
      first_argmin_by ltA keyA l = first_argmin_by ltB keyB l := by
  have aux : ∀ (t : List Nat) (b : Nat), (∀ i ∈ t, good i) → good b →
      t.foldl (fun b i => if ltA (keyA i) (keyA b) then i else b) b =
      t.foldl (fun b i => if ltB (keyB i) (keyB b) then i else b) b := by
    intro t
    induction t with
    | nil => intro b _ _; rfl
    | cons i rest ih =>
      intro b hm hb
      have hi : good i := hm i (List.mem_cons_self _ _)
      simp only [List.foldl_cons]
      rw [hkey i b hi hb]
      by_cases hc : ltB (keyB i) (keyB b) = true
      · simp only [hc, if_true]
        exact ih i (fun x hx => hm x (List.mem_cons_of_mem _ hx)) hi
      · simp only [Bool.not_eq_true] at hc
        simp only [hc, Bool.false_eq_true, if_false]
        exact ih b (fun x hx => hm x (List.mem_cons_of_mem _ hx)) hb
  intro l
  cases l with
  | nil => intro _; rfl
  | cons j rest =>
    intro hmem
    exact aux rest j (fun i hi => hmem i (List.mem_cons_of_mem _ hi))
      (hmem j (List.mem_cons_self _ _))

theorem XGBoostPredictor.lru_fallback_full (frames : List (Option String))
    (meta : List FrameMeta)
    (hocc : ∀ i, i < frames.length → frames.getD i none ≠ none) :
    XGBoostPredictor.lru_fallback frames meta =
      first_argmin_by (fun a b => decide (a < b))
        (fun i => (meta.getD i metaDefault).last_access) (List.range frames.length) := by
  unfold XGBoostPredictor.lru_fallback
  refine first_argmin_by_congr optNatLt (fun a b => decide (a < b)) _ _
    (fun i => frames.getD i none ≠ none) ?_ (List.range frames.length) ?_
  · intro i j hi hj
    cases hgi : frames.getD i none with
    | none => exact absurd hgi hi
    | some pi =>
      cases hgj : frames.getD j none with
      | none => exact absurd hgj hj
      | some pj => simp only [hgi, hgj]; rfl
  · intro i hi
    exact hocc i (List.mem_range.mp hi)

theorem xgb_untrained_pager_step (s : XgbState) (t : PagerState String)
    (pid : String) (n : Nat) (h : XgbPagerRel s t) :
    XgbPagerRel (XGBoostPredictor.untrained_step s pid n).2 (lru_access t (toString n)) := by
  obtain ⟨sfr, smeta, shist, spf, sph, scp, stp, slp, sct⟩ := s
  obtain ⟨hf, hm, hh, hpf, hct, hlp, htp, hcp⟩ := h
  dsimp only at hf hm hh hpf hct hlp htp hcp
  subst hf hm hh hpf hct hlp htp hcp
  unfold XGBoostPredictor.untrained_step lru_access
  by_cases hmem : some (toString n) ∈ t.frames
  · simp only [hmem, if_true]
    exact ⟨rfl, rfl, rfl, rfl, rfl, rfl, rfl, rfl⟩
  · simp only [hmem, if_false]
    cases hfi : t.frames.findIdx? (fun o => decide (o = none)) with
    | some i =>
      simp only [hfi]
      exact ⟨rfl, rfl, rfl, rfl, rfl, rfl, rfl, rfl⟩
    | none =>
      simp only [hfi]
      rw [XGBoostPredictor.lru_fallback_full t.frames t.meta (full_of_none_findIdx _ hfi)]
      exact ⟨rfl, rfl, rfl, rfl, rfl, rfl, rfl, rfl⟩

theorem lstm_untrained_pager_step (s : LstmState) (t : PagerState Nat)
    (pid : String) (n : Nat) (h : LstmPagerRel s t) :
    LstmPagerRel (LSTMPredictor.untrained_step s pid n).2 (lru_access t n) := by
  obtain ⟨sfr, smeta, shist, spf, sph, scp, stp, slp, sct⟩ := s
  obtain ⟨hf, hm, hh, hpf, hct, hlp, htp, hcp⟩ := h
  dsimp only at hf hm hh hpf hct hlp htp hcp
  subst hf hm hh hpf hct hlp htp hcp
  unfold LSTMPredictor.untrained_step lru_access
  by_cases hmem : some n ∈ t.frames
  · simp only [hmem, if_true]
    exact ⟨rfl, rfl, rfl, rfl, rfl, rfl, rfl, rfl⟩
  · simp only [hmem, if_false]
    cases hfi : t.frames.findIdx? (fun o => decide (o = none)) with
    | some i =>
      simp only [hfi]
      exact ⟨rfl, rfl, rfl, rfl, rfl, rfl, rfl, rfl⟩
    | none =>
      simp only [hfi]
      exact ⟨rfl, rfl, rfl, rfl, rfl, rfl, rfl, rfl⟩

theorem xgb_untrained_pager_run (P : XgbModel) (hP : P.is_fitted = false) :
    ∀ (seq : List (String × Nat)) (s : XgbState) (t : PagerState String),
      XgbPagerRel s t →
      XgbPagerRel (XGBoostPredictor.run P s seq)
        (lru_run t (seq.map (fun a => toString a.2))) := by
  intro seq
  induction seq with
  | nil => intro s t h; exact h
  | cons a rest ih =>
    intro s t h
    show XgbPagerRel (XGBoostPredictor.run P (XGBoostPredictor.access_page P s a.1 a.2).2 rest) _
    rw [xgb_access_page_untrained_eq P s a.1 a.2 hP]
    exact ih _ _ (xgb_untrained_pager_step s t a.1 a.2 h)

theorem lstm_untrained_pager_run (P : LstmModel) (hP : P.is_fitted = false) :
    ∀ (seq : List (String × Nat)) (s : LstmState) (t : PagerState Nat),
      LstmPagerRel s t →
      LstmPagerRel (LSTMPredictor.run P s seq) (lru_run t (seq.map (fun a => a.2))) := by
  intro seq
  induction seq with
  | nil => intro s t h; exact h
  | cons a rest ih =>
    intro s t h
    show LstmPagerRel (LSTMPredictor.run P (LSTMPredictor.access_page P s a.1 a.2).2 rest) _
    rw [lstm_access_page_untrained_eq P s a.1 a.2 hP]
    exact ih _ _ (lstm_untrained_pager_step s t a.1 a.2 h)

theorem xgb_pager_rel_init (fc : Nat) :
    XgbPagerRel (XgbState.init fc) (PagerState.init String fc) :=
  ⟨rfl, rfl, rfl, rfl, rfl, rfl, rfl, rfl⟩

theorem lstm_pager_rel_init (fc : Nat) :
    LstmPagerRel (LstmState.init fc) (PagerState.init Nat fc) :=
  ⟨rfl, rfl, rfl, rfl, rfl, rfl, rfl, rfl⟩

theorem xgb_rel_stats (s : XgbState) (t : PagerState String) (h : XgbPagerRel s t) :
    XGBoostPredictor.get_state s = pager_stats t := by
  obtain ⟨hf, hm, hh, hpf, hct, hlp, htp, hcp⟩ := h
  unfold XGBoostPredictor.get_state pager_stats
  rw [hh, hpf, htp, hcp]
  simp [Nat.add_comm]

theorem lstm_rel_stats (s : LstmState) (t : PagerState Nat) (h : LstmPagerRel s t) :
    LSTMPredictor.get_stats s = pager_stats t := by
  obtain ⟨hf, hm, hh, hpf, hct, hlp, htp, hcp⟩ := h
  unfold LSTMPredictor.get_stats pager_stats
  rw [hh, hpf, htp, hcp]
  simp [Nat.add_comm]

theorem XGBoostPredictor.select_victim_ml (P : XgbModel) (frames : List (Option String))
    (meta : List FrameMeta) (history : List String) (time : Nat) (f : String → Option ℚ)
    (hfit : P.is_fitted = true) (hlen : P.context_window ≤ history.length)
    (hctx : (lastN history P.context_window).all (fun p => decide (p ∈ P.classes_)) = true)
    (hproba : P.proba_fn (lastN history P.context_window) = some f) :
    XGBoostPredictor.select_victim P frames meta history time =
      (XGBoostPredictor.victim_fold (XGBoostPredictor.slot_score P frames meta time f)
        (List.range frames.length)).2 := by
  unfold XGBoostPredictor.select_victim
  rw [if_pos ⟨hlen, hfit⟩]
  dsimp only
  rw [if_pos hctx, hproba]

/-! Claim theorems. -/

/-- C3: Frame-table uniqueness invariant.  For every predictor, every frame
count and every sequence of accessPage calls from a fresh engine, the list of
occupied frame slots (`frames.filterMap id`) has no duplicates — no Page
occupies two frame slots simultaneously, so a Page present in the table
occupies exactly one slot.  Proved for both the XGBoost and the LSTM engine. -/
theorem c3_frame_uniqueness :
    (∀ (P : XgbModel) (fc : Nat) (accs : List (String × Nat)),
      ((XGBoostPredictor.run P (XgbState.init fc) accs).frames.filterMap id).Nodup) ∧
    (∀ (P : LstmModel) (fc : Nat) (accs : List (String × Nat)),
      ((LSTMPredictor.run P (LstmState.init fc) accs).frames.filterMap id).Nodup) := by
  constructor
  · intro P fc accs
    apply xgb_run_nodup
    rw [show (XgbState.init fc).frames = List.replicate fc none from rfl, occ_replicate_none]
    exact List.nodup_nil
  · intro P fc accs
    apply lstm_run_nodup
    rw [show (LstmState.init fc).frames = List.replicate fc none from rfl, occ_replicate_none]
    exact List.nodup_nil

/-- C4: Counter-sum invariant.  After any number of accessPage calls from a
fresh engine, `pageHits + pageFaults` equals the number of calls, and each
single call increments exactly one of the two counters.  Proved for both the
XGBoost and the LSTM engine. -/
theorem c4_counter_sum :
    (∀ (P : XgbModel) (fc : Nat) (accs : List (String × Nat)),
      (XGBoostPredictor.run P (XgbState.init fc) accs).page_hits +
        (XGBoostPredictor.run P (XgbState.init fc) accs).page_faults = accs.length) ∧
    (∀ (P : LstmModel) (fc : Nat) (accs : List (String × Nat)),
      (LSTMPredictor.run P (LstmState.init fc) accs).page_hits +
        (LSTMPredictor.run P (LstmState.init fc) accs).page_faults = accs.length) ∧
    (∀ (P : XgbModel) (s : XgbState) (pid : String) (n : Nat),
      ((XGBoostPredictor.access_page P s pid n).2.page_hits = s.page_hits + 1 ∧
        (XGBoostPredictor.access_page P s pid n).2.page_faults = s.page_faults) ∨
      ((XGBoostPredictor.access_page P s pid n).2.page_hits = s.page_hits ∧
        (XGBoostPredictor.access_page P s pid n).2.page_faults = s.page_faults + 1)) ∧
    (∀ (P : LstmModel) (s : LstmState) (pid : String) (n : Nat),
      ((LSTMPredictor.access_page P s pid n).2.page_hits = s.page_hits + 1 ∧
        (LSTMPredictor.access_page P s pid n).2.page_faults = s.page_faults) ∨
      ((LSTMPredictor.access_page P s pid n).2.page_hits = s.page_hits ∧
        (LSTMPredictor.access_page P s pid n).2.page_faults = s.page_faults + 1)) := by
  refine ⟨?_, ?_, xgb_access_counters, lstm_access_counters⟩
  · intro P fc accs
    have h := xgb_run_counters P accs (XgbState.init fc)
    simpa [XgbState.init] using h
  · intro P fc accs
    have h := lstm_run_counters P accs (LstmState.init fc)
    simpa [LstmState.init] using h

/-- C2: LRU-fallback scenario.  On a fresh engine with 2 frames bound to any
untrained predictor (XGBoost or LSTM), the accesses (P1,1), (P1,2), (P1,3) are
three consecutive faults filling slot 0 with page 1, slot 1 with page 2, and
then evicting the least-recently-used slot 0 with replaced = page 1; an
immediately following access to (P1,2) is a hit. -/
theorem c2_lru_fallback_scenario (Px : XgbModel) (Pl : LstmModel)
    (hx : Px.is_fitted = false) (hl : Pl.is_fitted = false) :
    (let r1 := XGBoostPredictor.access_page Px (XgbState.init 2) pid1 1
     let r2 := XGBoostPredictor.access_page Px r1.2 pid1 2
     let r3 := XGBoostPredictor.access_page Px r2.2 pid1 3
     let r4 := XGBoostPredictor.access_page Px r3.2 pid1 2
     List.lookup kHit r1.1 = some (DVal.vB false) ∧
     r1.2.frames = [some (toString 1), none] ∧
     List.lookup kHit r2.1 = some (DVal.vB false) ∧
     r2.2.frames = [some (toString 1), some (toString 2)] ∧
     List.lookup kHit r3.1 = some (DVal.vB false) ∧
     List.lookup kReplaced r3.1 = some (DVal.vOK (some (toString 1))) ∧
     r3.2.frames = [some (toString 3), some (toString 2)] ∧
     List.lookup kHit r4.1 = some (DVal.vB true)) ∧
    (let q1 := LSTMPredictor.access_page Pl (LstmState.init 2) pid1 1
     let q2 := LSTMPredictor.access_page Pl q1.2 pid1 2
     let q3 := LSTMPredictor.access_page Pl q2.2 pid1 3
     let q4 := LSTMPredictor.access_page Pl q3.2 pid1 2
     List.lookup kHit q1.1 = some (DVal.vB false) ∧
     q1.2.frames = [some 1, none] ∧
     List.lookup kHit q2.1 = some (DVal.vB false) ∧
     q2.2.frames = [some 1, some 2] ∧
     List.lookup kHit q3.1 = some (DVal.vB false) ∧
     List.lookup kReplaced q3.1 = some (DVal.vOK (some 1)) ∧
     q3.2.frames = [some 3, some 2] ∧
     List.lookup kHit q4.1 = some (DVal.vB true)) := by
  have ex : ∀ (s : XgbState) (pid : String) (k : Nat),
      XGBoostPredictor.access_page Px s pid k = XGBoostPredictor.untrained_step s pid k :=
    fun s pid k => xgb_access_page_untrained_eq Px s pid k hx
  have el : ∀ (s : LstmState) (pid : String) (k : Nat),
      LSTMPredictor.access_page Pl s pid k = LSTMPredictor.untrained_step s pid k :=
    fun s pid k => lstm_access_page_untrained_eq Pl s pid k hl
  simp only [ex, el]
  decide

/-- C2 witness: the scenario instantiated at concrete untrained predictors. -/
theorem c2_lru_fallback_scenario_witness :
    untrained_xgb.is_fitted = false ∧ untrained_lstm.is_fitted = false ∧
    ((let r1 := XGBoostPredictor.access_page untrained_xgb (XgbState.init 2) pid1 1
      let r2 := XGBoostPredictor.access_page untrained_xgb r1.2 pid1 2
      let r3 := XGBoostPredictor.access_page untrained_xgb r2.2 pid1 3
      let r4 := XGBoostPredictor.access_page untrained_xgb r3.2 pid1 2
      List.lookup kHit r1.1 = some (DVal.vB false) ∧
      r1.2.frames = [some (toString 1), none] ∧
      List.lookup kHit r2.1 = some (DVal.vB false) ∧
      r2.2.frames = [some (toString 1), some (toString 2)] ∧
      List.lookup kHit r3.1 = some (DVal.vB false) ∧
      List.lookup kReplaced r3.1 = some (DVal.vOK (some (toString 1))) ∧
      r3.2.frames = [some (toString 3), some (toString 2)] ∧
      List.lookup kHit r4.1 = some (DVal.vB true)) ∧
     (let q1 := LSTMPredictor.access_page untrained_lstm (LstmState.init 2) pid1 1
      let q2 := LSTMPredictor.access_page untrained_lstm q1.2 pid1 2
      let q3 := LSTMPredictor.access_page untrained_lstm q2.2 pid1 3
      let q4 := LSTMPredictor.access_page untrained_lstm q3.2 pid1 2
      List.lookup kHit q1.1 = some (DVal.vB false) ∧
      q1.2.frames = [some 1, none] ∧
      List.lookup kHit q2.1 = some (DVal.vB false) ∧
      q2.2.frames = [some 1, some 2] ∧
      List.lookup kHit q3.1 = some (DVal.vB false) ∧
      List.lookup kReplaced q3.1 = some (DVal.vOK (some 1)) ∧
      q3.2.frames = [some 3, some 2] ∧
      List.lookup kHit q4.1 = some (DVal.vB true))) :=
  ⟨rfl, rfl, c2_lru_fallback_scenario untrained_xgb untrained_lstm rfl rfl⟩

/-- C5 counterexample: on both engines, an access to (P2, 5) immediately after
(P1, 5) on a fresh engine is a HIT — the claim that two accesses with the same
pageNumber but different processId denote distinct Pages and cannot hit each
other's frame slot is false: `access_page` derives the page key from
`page_number` alone. -/
theorem c5_page_identity_counterexample :
    pid1 ≠ pid2 ∧
    List.lookup kHit (XGBoostPredictor.access_page untrained_xgb
      (XGBoostPredictor.access_page untrained_xgb (XgbState.init 4) pid1 5).2 pid2 5).1
      = some (DVal.vB true) ∧
    List.lookup kHit (LSTMPredictor.access_page untrained_lstm
      (LSTMPredictor.access_page untrained_lstm (LstmState.init 4) pid1 5).2 pid2 5).1
      = some (DVal.vB true) :=
  ⟨by decide, by decide, by decide⟩

/-- C5 as amended: inside `access_page` the page identity is the pageNumber
alone (`str(page_number)` for XGBoost, `int(page_number)` for LSTM), with the
processId ignored, so the whole access result is independent of the processId
and two accesses with the same pageNumber but different processIds denote the
SAME page: on a fresh engine of any positive frame count the second access
hits the first one's slot.  (The composite "processId-pageNumber" string key
appears only in the training-data loader for dictionary-form accesses.) -/
theorem c5_page_identity_amended :
    (∀ (P : XgbModel) (s : XgbState) (pid pid' : String) (n : Nat),
      XGBoostPredictor.access_page P s pid n = XGBoostPredictor.access_page P s pid' n) ∧
    (∀ (P : LstmModel) (s : LstmState) (pid pid' : String) (n : Nat),
      LSTMPredictor.access_page P s pid n = LSTMPredictor.access_page P s pid' n) ∧
    (∀ (P : XgbModel) (pid pid' : String) (n fc : Nat), 0 < fc →
      List.lookup kHit (XGBoostPredictor.access_page P
        (XGBoostPredictor.access_page P (XgbState.init fc) pid n).2 pid' n).1
        = some (DVal.vB true)) ∧
    (∀ (P : LstmModel) (pid pid' : String) (n fc : Nat), 0 < fc →
      List.lookup kHit (LSTMPredictor.access_page P
        (LSTMPredictor.access_page P (LstmState.init fc) pid n).2 pid' n).1
        = some (DVal.vB true)) := by
  refine ⟨fun P s pid pid' n => rfl, fun P s pid pid' n => rfl, ?_, ?_⟩
  · intro P pid pid' n fc hfc
    have hmem0 : ¬ (some (toString n) ∈ List.replicate fc (none : Option String)) := by
      simp [List.mem_replicate]
    have hfind : (List.replicate fc (none : Option String)).findIdx?
        (fun o => decide (o = none)) = some 0 := by
      cases fc with
      | zero => omega
      | succ m => simp [List.replicate_succ, List.findIdx?_cons]
    have h1 : ((XGBoostPredictor.access_page P (XgbState.init fc) pid n).2).frames
        = (List.replicate fc (none : Option String)).set 0 (some (toString n)) := by
      simp only [XGBoostPredictor.access_page, XgbState.init]
      rw [if_neg hmem0]
      dsimp only
      rw [hfind]
    have hmem1 : some (toString n)
        ∈ ((XGBoostPredictor.access_page P (XgbState.init fc) pid n).2).frames := by
      rw [h1]
      cases fc with
      | zero => omega
      | succ m =>
        rw [List.replicate_succ, List.set_cons_zero]
        exact List.mem_cons_self _ _
    generalize hg : (XGBoostPredictor.access_page P (XgbState.init fc) pid n).2 = s1 at hmem1 ⊢
    unfold XGBoostPredictor.access_page
    rw [if_pos hmem1]
    simp [List.lookup]
  · intro P pid pid' n fc hfc
    have hmem0 : ¬ (some n ∈ List.replicate fc (none : Option Nat)) := by
      simp [List.mem_replicate]
    have hfind : (List.replicate fc (none : Option Nat)).findIdx?
        (fun o => decide (o = none)) = some 0 := by
      cases fc with
      | zero => omega
      | succ m => simp [List.replicate_succ, List.findIdx?_cons]
    have h1 : ((LSTMPredictor.access_page P (LstmState.init fc) pid n).2).frames
        = (List.replicate fc (none : Option Nat)).set 0 (some n) := by
      simp only [LSTMPredictor.access_page, LstmState.init]
      rw [if_neg hmem0]
      dsimp only
      rw [hfind]
    have hmem1 : some n ∈ ((LSTMPredictor.access_page P (LstmState.init fc) pid n).2).frames := by
      rw [h1]
      cases fc with
      | zero => omega
      | succ m =>
        rw [List.replicate_succ, List.set_cons_zero]
        exact List.mem_cons_self _ _
    generalize hg : (LSTMPredictor.access_page P (LstmState.init fc) pid n).2 = s1 at hmem1 ⊢
    unfold LSTMPredictor.access_page
    rw [if_pos hmem1]
    simp [List.lookup]

/-- C5 witness: the amended hit scenario at concrete inputs. -/
theorem c5_page_identity_amended_witness :
    (0 < 4) ∧
    List.lookup kHit (XGBoostPredictor.access_page untrained_xgb
      (XGBoostPredictor.access_page untrained_xgb (XgbState.init 4) pid1 5).2 pid2 5).1
      = some (DVal.vB true) :=
  ⟨by decide, (c5_page_identity_amended.2.2.1) untrained_xgb pid1 pid2 5 4 (by decide)⟩

theorem trim_length_le {α : Type} (l : List α) :
    (if MAX_ACCUMULATED < l.length then l.drop (l.length - MAX_ACCUMULATED) else l).length
      ≤ MAX_ACCUMULATED := by
  split
  · rename_i hlen
    rw [List.length_drop]
    simp only [MAX_ACCUMULATED] at hlen ⊢
    omega
  · rename_i hlen
    simp only [MAX_ACCUMULATED] at hlen ⊢
    omega

/-- C6: Accumulator FIFO cap.  Every successful `/train-all` mutation leaves
at most `MAX_ACCUMULATED` (10) accumulated sequences, and submitting 12
distinct single-element sequences one per call under the same workload type
leaves exactly the last 10 submitted sequences, in submission order. -/
theorem c6_accumulator_cap :
    (∀ (st : TrainingState) (sequences : List (List Nat)) (wt : String) (fr : Bool)
       (st1 : TrainingState) (tc : Bool),
      train_all_update st sequences wt fr = some (st1, tc) →
      st1.accumulated_sequences.length ≤ MAX_ACCUMULATED) ∧
    (train_all_fold TrainingState.init wtSequential
      ((List.range 12).map (fun k => [[k]]))).accumulated_sequences
      = [[2], [3], [4], [5], [6], [7], [8], [9], [10], [11]] := by
  constructor
  · intro st sequences wt fr st1 tc h
    unfold train_all_update at h
    by_cases hs : sequences = []
    · rw [if_pos hs] at h; cases h
    · rw [if_neg hs] at h
      have hp := Option.some.inj h
      injection hp with h1 h2
      subst h1
      dsimp only
      exact trim_length_le _
  · decide

/-- C6 witness: a concrete successful mutation is capped at 10. -/
theorem c6_accumulator_cap_witness :
    train_all_update TrainingState.init [[1], [2]] wtSequential false
      = some ({ accumulated_sequences := [[1], [2]]
                current_workload_type := some wtSequential
                total_samples := 1
                training_history := [(wtSequential, 2, false)] }, false) ∧
    ({ accumulated_sequences := [[1], [2]]
       current_workload_type := some wtSequential
       total_samples := 1
       training_history := [(wtSequential, 2, false)] } : TrainingState).accumulated_sequences.length
      ≤ MAX_ACCUMULATED :=
  ⟨by decide,
   c6_accumulator_cap.1 TrainingState.init [[1], [2]] wtSequential false _ false (by decide)⟩

/-- C7: Accumulator auto-reset on workload-type change.  When the current
workload type is set and differs from the submitted one, a successful
`/train-all` call discards the previously accumulated sequences and sample
counter, reports `type_changed = true`, sets the new workload type, and
retains exactly the newly submitted sequences (trimmed to the cap). -/
theorem c7_auto_reset (st : TrainingState) (sequences : List (List Nat)) (wt : String)
    (fr : Bool) (t : String) (hcur : st.current_workload_type = some t) (hne : t ≠ wt)
    (hs : sequences ≠ []) :
    train_all_update st sequences wt fr =
      some ({ accumulated_sequences :=
                if MAX_ACCUMULATED < sequences.length then
                  sequences.drop (sequences.length - MAX_ACCUMULATED) else sequences
              current_workload_type := some wt
              total_samples := (sequences.headD []).length
              training_history := st.training_history ++
                [(wt, (if MAX_ACCUMULATED < sequences.length then
                  sequences.drop (sequences.length - MAX_ACCUMULATED) else sequences).length,
                  true)] }, true) := by
  unfold train_all_update
  rw [if_neg hs]
  have h1 : st.current_workload_type.isSome = true := by rw [hcur]; rfl
  have h2 : ¬ st.current_workload_type = some wt := by
    rw [hcur]
    intro hx
    exact hne (Option.some.inj hx)
  simp only [h1, h2, not_false_iff, and_true, true_and, if_true, decide_eq_true_eq]
  cases fr <;> simp

/-- C7 witness: submitting workload type "sequential" and then "random"
clears the accumulated sequences on the second call and reports the change. -/
theorem c7_auto_reset_witness :
    ({ accumulated_sequences := [[1], [2]]
       current_workload_type := some wtSequential
       total_samples := 1
       training_history := [] } : TrainingState).current_workload_type = some wtSequential ∧
    wtSequential ≠ wtRandom ∧ ([[7]] : List (List Nat)) ≠ [] ∧
    train_all_update
      { accumulated_sequences := [[1], [2]]
        current_workload_type := some wtSequential
        total_samples := 1
        training_history := [] } [[7]] wtRandom false =
      some ({ accumulated_sequences :=
                if MAX_ACCUMULATED < ([[7]] : List (List Nat)).length then
                  ([[7]] : List (List Nat)).drop (([[7]] : List (List Nat)).length - MAX_ACCUMULATED)
                else [[7]]
              current_workload_type := some wtRandom
              total_samples := (([[7]] : List (List Nat)).headD []).length
              training_history := ([] : List (String × Nat × Bool)) ++
                [(wtRandom, (if MAX_ACCUMULATED < ([[7]] : List (List Nat)).length then
                  ([[7]] : List (List Nat)).drop (([[7]] : List (List Nat)).length - MAX_ACCUMULATED)
                  else [[7]]).length, true)] }, true) :=
  ⟨by decide, by decide, by decide,
   c7_auto_reset _ [[7]] wtRandom false wtSequential rfl (by decide) (by decide)⟩

/-- C9 counterexample: on the XGBoost engine a hit-path call (the record's
"hit" entry is true) returns a record WITHOUT "pageFault", "replaced" or
"frames" entries — the claimed record
{hit, pageFault, replaced, frames, prediction} is not what
`XGBoostPredictor.access_page` returns on a hit (it returns
{hit, page, frame, prediction}). -/
theorem c9_hit_path_counterexample :
    List.lookup kHit (XGBoostPredictor.access_page untrained_xgb
      (XGBoostPredictor.access_page untrained_xgb (XgbState.init 2) pid1 1).2 pid1 1).1
      = some (DVal.vB true) ∧
    List.lookup kPageFault (XGBoostPredictor.access_page untrained_xgb
      (XGBoostPredictor.access_page untrained_xgb (XgbState.init 2) pid1 1).2 pid1 1).1
      = none ∧
    List.lookup kReplaced (XGBoostPredictor.access_page untrained_xgb
      (XGBoostPredictor.access_page untrained_xgb (XgbState.init 2) pid1 1).2 pid1 1).1
      = none ∧
    List.lookup kFrames (XGBoostPredictor.access_page untrained_xgb
      (XGBoostPredictor.access_page untrained_xgb (XgbState.init 2) pid1 1).2 pid1 1).1
      = none :=
  ⟨by decide, by decide, by decide, by decide⟩

/-- C9 as amended: on a hit, both engines increment pageHits (not pageFaults),
set the hit slot's lastAccess to the incremented currentTime and bump its
accessCount, leave every frame's content unchanged, and return prediction =
the newly stored lastPrediction; the LSTM engine returns exactly the record
{hit: true, pageFault: false, replaced: none, frames, prediction}, while the
XGBoost engine returns {hit: true, page, frame, prediction} instead. -/
theorem c9_hit_path_amended (Px : XgbModel) (sx : XgbState) (pidx : String) (nx : Nat)
    (Pl : LstmModel) (sl : LstmState) (pidl : String) (nl : Nat)
    (hx : some (toString nx) ∈ sx.frames) (hl : some nl ∈ sl.frames) :
    ((XGBoostPredictor.access_page Px sx pidx nx).1 =
        [(kHit, DVal.vB true), (kPage, DVal.vK (toString nx)),
         (kFrame, DVal.vN (sx.frames.findIdx (fun o => decide (o = some (toString nx))))),
         (kPrediction, DVal.vOK (XGBoostPredictor.access_page Px sx pidx nx).2.last_prediction)] ∧
      (XGBoostPredictor.access_page Px sx pidx nx).2.page_hits = sx.page_hits + 1 ∧
      (XGBoostPredictor.access_page Px sx pidx nx).2.page_faults = sx.page_faults ∧
      (XGBoostPredictor.access_page Px sx pidx nx).2.frames = sx.frames ∧
      (XGBoostPredictor.access_page Px sx pidx nx).2.current_time = sx.current_time + 1 ∧
      (XGBoostPredictor.access_page Px sx pidx nx).2.frame_metadata =
        sx.frame_metadata.set (sx.frames.findIdx (fun o => decide (o = some (toString nx))))
          { sx.frame_metadata.getD
              (sx.frames.findIdx (fun o => decide (o = some (toString nx)))) metaDefault with
            last_access := sx.current_time + 1
            access_count := (sx.frame_metadata.getD
              (sx.frames.findIdx (fun o => decide (o = some (toString nx))))
                metaDefault).access_count + 1 }) ∧
    ((LSTMPredictor.access_page Pl sl pidl nl).1 =
        [(kHit, DVal.vB true), (kPageFault, DVal.vB false), (kReplaced, DVal.vOK none),
         (kFrames, DVal.vL sl.frames),
         (kPrediction, DVal.vOK (LSTMPredictor.access_page Pl sl pidl nl).2.last_prediction)] ∧
      (LSTMPredictor.access_page Pl sl pidl nl).2.page_hits = sl.page_hits + 1 ∧
      (LSTMPredictor.access_page Pl sl pidl nl).2.page_faults = sl.page_faults ∧
      (LSTMPredictor.access_page Pl sl pidl nl).2.frames = sl.frames ∧
      (LSTMPredictor.access_page Pl sl pidl nl).2.current_time = sl.current_time + 1 ∧
      (LSTMPredictor.access_page Pl sl pidl nl).2.frame_metadata =
        sl.frame_metadata.set (sl.frames.findIdx (fun o => decide (o = some nl)))
          { sl.frame_metadata.getD
              (sl.frames.findIdx (fun o => decide (o = some nl))) metaDefault with
            last_access := sl.current_time + 1
            access_count := (sl.frame_metadata.getD
              (sl.frames.findIdx (fun o => decide (o = some nl)))
                metaDefault).access_count + 1 }) := by
  unfold XGBoostPredictor.access_page LSTMPredictor.access_page
  rw [if_pos hx, if_pos hl]
  exact ⟨⟨rfl, rfl, rfl, rfl, rfl, rfl⟩, ⟨rfl, rfl, rfl, rfl, rfl, rfl⟩⟩

/-- C9 witness: the amended hit-path postcondition at a concrete state. -/
theorem c9_hit_path_amended_witness :
    (some (toString 7) ∈ c9_sx.frames) ∧ (some 7 ∈ c9_sl.frames) ∧
    (XGBoostPredictor.access_page untrained_xgb c9_sx pid1 7).2.page_hits
      = c9_sx.page_hits + 1 ∧
    (LSTMPredictor.access_page untrained_lstm c9_sl pid1 7).2.page_hits
      = c9_sl.page_hits + 1 :=
  ⟨by decide, by decide,
   (c9_hit_path_amended untrained_xgb c9_sx pid1 7 untrained_lstm c9_sl pid1 7
     (by decide) (by decide)).1.2.1,
   (c9_hit_path_amended untrained_xgb c9_sx pid1 7 untrained_lstm c9_sl pid1 7
     (by decide) (by decide)).2.2.1⟩

/-- C10: implicit default-victim edge case of the XGBoost engine.  When the
frame table is full, the model is fitted, the last context_window history
pages are all in the trained vocabulary and the probability computation
succeeds, but no resident page is in the trained class set, `_select_victim`
returns slot 0 unconditionally (for EVERY metadata, i.e. regardless of any
slot's lastAccess), and the pure-LRU fallback is not consulted. -/
theorem c10_default_victim (P : XgbModel) (frames : List (Option String))
    (meta : List FrameMeta) (history : List String) (time : Nat) (f : String → Option ℚ)
    (hfit : P.is_fitted = true) (hlen : P.context_window ≤ history.length)
    (hctx : (lastN history P.context_window).all (fun p => decide (p ∈ P.classes_)) = true)
    (hproba : P.proba_fn (lastN history P.context_window) = some f)
    (hfull : ∀ i, i < frames.length → frames.getD i none ≠ none)
    (hnoclass : ∀ pg, some pg ∈ frames → pg ∉ P.classes_) :
    XGBoostPredictor.select_victim P frames meta history time = 0 := by
  rw [XGBoostPredictor.select_victim_ml P frames meta history time f hfit hlen hctx hproba]
  apply XGBoostPredictor.victim_fold_all_none
  intro i hi
  unfold XGBoostPredictor.slot_score
  cases hgi : frames.getD i none with
  | none => rfl
  | some pg =>
    have hpg : some pg ∈ frames := by
      rw [List.getD_eq_getElem frames none hi] at hgi
      rw [← hgi]
      exact List.getElem_mem hi
    dsimp only
    rw [if_neg (fun hc => hnoclass pg hpg hc.2)]

/-- C10 witness: at a concrete full table with out-of-vocabulary pages and
slot 1 least recently used, the victim is still slot 0; the LRU fallback
would have chosen slot 1. -/
theorem c10_default_victim_witness :
    c10_model.is_fitted = true ∧
    c10_model.context_window ≤ ([toString 1] : List String).length ∧
    ((lastN [toString 1] c10_model.context_window).all
      (fun p => decide (p ∈ c10_model.classes_)) = true) ∧
    c10_model.proba_fn (lastN [toString 1] c10_model.context_window) = some c10_f ∧
    (∀ i, i < c10_frames.length → c10_frames.getD i none ≠ none) ∧
    XGBoostPredictor.select_victim c10_model c10_frames c10_meta [toString 1] 6 = 0 ∧
    XGBoostPredictor.lru_fallback c10_frames c10_meta = 1 :=
  ⟨rfl, by decide, by decide, rfl, by decide,
   c10_default_victim c10_model c10_frames c10_meta [toString 1] 6 c10_f rfl
     (by decide) (by decide) rfl (by decide)
     (by
       intro pg hpg
       simp only [c10_frames, List.mem_cons, List.mem_singleton] at hpg
       rcases hpg with h | h | h
       · cases h; decide
       · cases h; decide
       · cases h),
   by decide⟩

/-- C1 counterexample: a reachable full, fitted state with an in-vocabulary
context window where the claim's scoring rule (every occupied slot scores,
unscorable pages contribute probability 0) picks slot 0, while the code's
`_select_victim` skips the out-of-vocabulary resident page "5" entirely and
evicts slot 1 (page "1") instead. -/
theorem c1_ml_hybrid_counterexample :
    (∀ i, i < c1_state.frames.length → c1_state.frames.getD i none ≠ none) ∧
    c1_model.is_fitted = true ∧
    ((lastN (c1_state.history ++ [toString 2]) c1_model.context_window).all
      (fun p => decide (p ∈ c1_model.classes_)) = true) ∧
    c1_model.proba_fn (lastN (c1_state.history ++ [toString 2]) c1_model.context_window)
      = some c1_probs ∧
    XGBoostPredictor.claim_victim c1_model c1_state.frames c1_state.frame_metadata
      (c1_state.current_time + 1) c1_probs = 0 ∧
    List.lookup kFrame (XGBoostPredictor.access_page c1_model c1_state pid1 2).1
      = some (DVal.vN 1) ∧
    List.lookup kReplaced (XGBoostPredictor.access_page c1_model c1_state pid1 2).1
      = some (DVal.vOK (some (toString 1))) := by
  refine ⟨by decide, rfl, by decide, rfl, ?_, by decide, by decide⟩
  have hfr : c1_state.frames = [some (toString 5), some (toString 1)] := by decide
  have hmeta : c1_state.frame_metadata = [⟨1, 1, 1⟩, ⟨2, 2, 1⟩] := by decide
  have htime : c1_state.current_time = 2 := by decide
  rw [hfr, hmeta, htime]
  unfold XGBoostPredictor.claim_victim
  norm_num [c1_model, c1_probs, metaDefault, List.range_succ, List.min?, List.find?,
    List.filter, (show toString 5 ≠ toString 1 from by decide),
    (show toString 5 ≠ toString 2 from by decide)]

/-- C1 as amended: under the same conditions (table full, model fitted,
context window inside the vocabulary, probabilities computed), the victim is
the occupied slot whose page the scoring loop accepts (non-empty page inside
the trained vocabulary, `slot_score = some _`) with the minimum score
`prob - 0.3 * (currentTime - lastAccess)/max(1, currentTime)`, ties broken by
the lowest slot index; slots whose page the loop cannot score are EXCLUDED
from the minimization (rather than scored 0), and when no slot qualifies the
victim defaults to slot 0. -/
theorem c1_ml_hybrid_amended (P : XgbModel) (frames : List (Option String))
    (meta : List FrameMeta) (history : List String) (time : Nat) (f : String → Option ℚ)
    (hfit : P.is_fitted = true) (hlen : P.context_window ≤ history.length)
    (hctx : (lastN history P.context_window).all (fun p => decide (p ∈ P.classes_)) = true)
    (hproba : P.proba_fn (lastN history P.context_window) = some f)
    (hfull : ∀ i, i < frames.length → frames.getD i none ≠ none) :
    ((∀ i, i < frames.length → XGBoostPredictor.slot_score P frames meta time f i = none) →
      XGBoostPredictor.select_victim P frames meta history time = 0) ∧
    (∀ j q, j < frames.length →
      XGBoostPredictor.slot_score P frames meta time f j = some q →
      ∃ m, XGBoostPredictor.slot_score P frames meta time f
          (XGBoostPredictor.select_victim P frames meta history time) = some m ∧
        XGBoostPredictor.select_victim P frames meta history time < frames.length ∧
        (∀ i q', i < frames.length →
          XGBoostPredictor.slot_score P frames meta time f i = some q' → m ≤ q') ∧
        (∀ i, i < frames.length →
          XGBoostPredictor.slot_score P frames meta time f i = some m →
          XGBoostPredictor.select_victim P frames meta history time ≤ i)) := by
  rw [XGBoostPredictor.select_victim_ml P frames meta history time f hfit hlen hctx hproba]
  constructor
  · intro hnone
    exact XGBoostPredictor.victim_fold_all_none _ _ hnone
  · intro j q hj hq
    rcases XGBoostPredictor.victim_fold_spec
        (XGBoostPredictor.slot_score P frames meta time f) frames.length with
      ⟨hn, he⟩ | ⟨m, v, he, hv, hsv, hmin, hfirst⟩
    · rw [hn j hj] at hq
      cases hq
    · refine ⟨m, ?_, ?_, ?_, ?_⟩
      · rw [he]
        exact hsv
      · rw [he]
        exact hv
      · intro i q' hi hq'
        exact hmin i hi q' hq'
      · intro i hi hm
        rw [he]
        exact hfirst i hi hm

/-- C1 witness: the amended minimization at the concrete reachable state used
in the counterexample, where slot 1 (page "1", score 8/10) is the only
qualifying slot and is the victim. -/
theorem c1_ml_hybrid_amended_witness :
    c1_model.is_fitted = true ∧
    c1_model.context_window ≤ (c1_state.history ++ [toString 2]).length ∧
    ((lastN (c1_state.history ++ [toString 2]) c1_model.context_window).all
      (fun p => decide (p ∈ c1_model.classes_)) = true) ∧
    c1_model.proba_fn (lastN (c1_state.history ++ [toString 2]) c1_model.context_window)
      = some c1_probs ∧
    (∀ i, i < c1_state.frames.length → c1_state.frames.getD i none ≠ none) ∧
    (1 : Nat) < c1_state.frames.length ∧
    XGBoostPredictor.slot_score c1_model c1_state.frames c1_state.frame_metadata
      (c1_state.current_time + 1) c1_probs 1 = some (8 / 10) ∧
    (∃ m, XGBoostPredictor.slot_score c1_model c1_state.frames c1_state.frame_metadata
        (c1_state.current_time + 1) c1_probs
        (XGBoostPredictor.select_victim c1_model c1_state.frames c1_state.frame_metadata
          (c1_state.history ++ [toString 2]) (c1_state.current_time + 1)) = some m ∧
      XGBoostPredictor.select_victim c1_model c1_state.frames c1_state.frame_metadata
        (c1_state.history ++ [toString 2]) (c1_state.current_time + 1)
        < c1_state.frames.length ∧
      (∀ i q', i < c1_state.frames.length →
        XGBoostPredictor.slot_score c1_model c1_state.frames c1_state.frame_metadata
          (c1_state.current_time + 1) c1_probs i = some q' → m ≤ q') ∧
      (∀ i, i < c1_state.frames.length →
        XGBoostPredictor.slot_score c1_model c1_state.frames c1_state.frame_metadata
          (c1_state.current_time + 1) c1_probs i = some m →
        XGBoostPredictor.select_victim c1_model c1_state.frames c1_state.frame_metadata
          (c1_state.history ++ [toString 2]) (c1_state.current_time + 1) ≤ i)) :=
  by
  have hfr : c1_state.frames = [some (toString 5), some (toString 1)] := by decide
  have hmeta : c1_state.frame_metadata = [⟨1, 1, 1⟩, ⟨2, 2, 1⟩] := by decide
  have htime : c1_state.current_time = 2 := by decide
  have hscore : XGBoostPredictor.slot_score c1_model c1_state.frames c1_state.frame_metadata
      (c1_state.current_time + 1) c1_probs 1 = some (8 / 10) := by
    rw [hfr, hmeta, htime]
    unfold XGBoostPredictor.slot_score
    norm_num [c1_model, c1_probs, metaDefault,
      (show toString 1 ≠ "" from by decide), (show toString 1 ≠ toString 2 from by decide),
      (show (1 ⊔ (2 + 1) : Nat) = 3 from by decide)]
  exact ⟨rfl, by decide, by decide, rfl, by decide, by decide, hscore,
    (c1_ml_hybrid_amended c1_model c1_state.frames c1_state.frame_metadata
      (c1_state.history ++ [toString 2]) (c1_state.current_time + 1) c1_probs
      rfl (by decide) (by decide) rfl (by decide)).2 1 (8 / 10) (by decide) hscore⟩

/-- C8: Comparison harness degradation.  For every positive frame count (at
`frameCount = 0` the source's `min(range(0), ...)` raises and `/compare`
returns an error with no stats), every non-empty access sequence, and any
global predictor pair of which exactly one is fitted, `compare_models`
completes without raising and returns a stats entry for both families whose
`trained` flags mirror the global fitted flags, and the family without a
fitted snapshot runs its ephemeral engine untrained: its whole entry equals
that of the stand-alone pure-LRU pager on the same key sequence (so every one
of its evictions is the pure-LRU choice). -/
theorem c8_compare_degradation (gx : XgbModel) (gl : LstmModel) (fc : Nat)
    (seq : List (String × Nat)) (hfc : 0 < fc) (hne : seq ≠ [])
    (hdiff : gx.is_fitted ≠ gl.is_fitted) :
    ((compare_models gx gl fc seq).1.trained = gx.is_fitted ∧
      (compare_models gx gl fc seq).2.trained = gl.is_fitted) ∧
    (gx.is_fitted = false →
      (compare_models gx gl fc seq).1 = lru_entry fc (seq.map (fun a => toString a.2))) ∧
    (gl.is_fitted = false →
      (compare_models gx gl fc seq).2 = lru_entry fc (seq.map (fun a => a.2))) := by
  refine ⟨⟨?_, ?_⟩, ?_, ?_⟩
  · unfold compare_models entry_of_stats
    cases hgx : gx.is_fitted <;> simp [hgx, untrained_xgb]
  · unfold compare_models entry_of_stats
    cases hgl : gl.is_fitted <;> simp [hgl, untrained_lstm]
  · intro hgx
    have hngx : ¬ (gx.is_fitted = true) := by
      rw [hgx]
      exact fun h => Bool.noConfusion h
    unfold compare_models
    rw [if_neg hngx]
    dsimp only
    unfold lru_entry
    rw [xgb_rel_stats _ _
      (xgb_untrained_pager_run untrained_xgb rfl seq _ _ (xgb_pager_rel_init fc))]
    rfl
  · intro hgl
    have hngl : ¬ (gl.is_fitted = true) := by
      rw [hgl]
      exact fun h => Bool.noConfusion h
    unfold compare_models
    rw [if_neg hngl]
    dsimp only
    unfold lru_entry
    rw [lstm_rel_stats _ _
      (lstm_untrained_pager_run untrained_lstm rfl seq _ _ (lstm_pager_rel_init fc))]
    rfl

/-- C8 witness: a fitted XGBoost snapshot compared against an unfitted LSTM
on a concrete sequence. -/
theorem c8_compare_degradation_witness :
    ((0 : Nat) < 2 ∧ c8_seq ≠ [] ∧ c8_gx.is_fitted ≠ untrained_lstm.is_fitted) ∧
    ((compare_models c8_gx untrained_lstm 2 c8_seq).1.trained = c8_gx.is_fitted ∧
      (compare_models c8_gx untrained_lstm 2 c8_seq).2.trained = untrained_lstm.is_fitted) ∧
    (c8_gx.is_fitted = false →
      (compare_models c8_gx untrained_lstm 2 c8_seq).1
        = lru_entry 2 (c8_seq.map (fun a => toString a.2))) ∧
    (untrained_lstm.is_fitted = false →
      (compare_models c8_gx untrained_lstm 2 c8_seq).2
        = lru_entry 2 (c8_seq.map (fun a => a.2))) :=
  ⟨⟨by decide, by decide, by decide⟩,
   (c8_compare_degradation c8_gx untrained_lstm 2 c8_seq (by decide) (by decide)
     (by decide)).1,
   (c8_compare_degradation c8_gx untrained_lstm 2 c8_seq (by decide) (by decide)
     (by decide)).2.1,
   (c8_compare_degradation c8_gx untrained_lstm 2 c8_seq (by decide) (by decide)
     (by decide)).2.2⟩
